import Mathlib

/-!
Verification of the eth-suiResolver cross-chain atomic-swap coordinator.

The development shallowly embeds the hash utilities (JS `HashUtility`,
Move `hash_utility`), the two on-chain escrow contracts
(Solidity `ETHWSUISwap`, Move `safe_escrow`), the `TimeoutManager`,
the relayer retry loop, and the resolver's per-swap monitoring step,
and proves or refutes the specified properties about them.

Bytes are `Nat` values below 256; machine words are `Nat` reduced
modulo `2 ^ 32` or `2 ^ 64` where the source wraps.
-/

set_option maxRecDepth 100000

/-! ## Byte and word helpers -/

/-- The modulus of 32-bit words, `2 ^ 32`. -/
def w32 : Nat := 4294967296

/-- The modulus of 64-bit lanes, `2 ^ 64`. -/
def w64 : Nat := 18446744073709551616

/-- Wrapping 32-bit addition. -/
def add32 (a b : Nat) : Nat := (a + b) % w32

/-- Right rotation on 32 bits. -/
def rotr32 (x n : Nat) : Nat := ((x >>> n) ||| (x <<< (32 - n))) % w32

/-- Left rotation on 64 bits. -/
def rotl64 (x n : Nat) : Nat := ((x <<< n) ||| (x >>> (64 - n))) % w64

/-- Big-endian 4-byte encoding of a 32-bit word. -/
def wordToBytesBE (x : Nat) : List Nat :=
  [x / 16777216 % 256, x / 65536 % 256, x / 256 % 256, x % 256]

/-- Big-endian 8-byte encoding of a 64-bit value. -/
def toBytes8BE (x : Nat) : List Nat :=
  [x / 72057594037927936 % 256, x / 281474976710656 % 256,
   x / 1099511627776 % 256, x / 4294967296 % 256,
   x / 16777216 % 256, x / 65536 % 256, x / 256 % 256, x % 256]

/-- Parse a byte list as big-endian 32-bit words (4 bytes each). -/
def bytesToWordsBE : List Nat → List Nat
  | a :: b :: c :: d :: rest => (((a * 256 + b) * 256 + c) * 256 + d) :: bytesToWordsBE rest
  | _ => []

/-- Fold a byte list in chunks of `n + 1` bytes, with explicit fuel so the
recursion is structural (each step consumes at least one byte). -/
def foldChunksGo (n : Nat) (f : α → List Nat → α) : Nat → α → List Nat → α
  | _, a, [] => a
  | 0, a, _ => a
  | fuel + 1, a, x :: xs =>
      foldChunksGo n f fuel (f a ((x :: xs).take (n + 1))) ((x :: xs).drop (n + 1))

/-- Fold a byte list in chunks of `n + 1` bytes. -/
def foldChunks (n : Nat) (f : α → List Nat → α) (a : α) (l : List Nat) : α :=
  foldChunksGo n f l.length a l

/-! ## SHA-256 (FIPS 180-4), used by `crypto.createHash('sha256')` in
`HashUtility.sha256` and by Solidity's `sha256` builtin. -/

/-- The 64 SHA-256 round constants. -/
def sha256K : List Nat :=
  [1116352408, 1899447441, 3049323471, 3921009573, 961987163, 1508970993, 2453635748, 2870763221,
   3624381080, 310598401, 607225278, 1426881987, 1925078388, 2162078206, 2614888103, 3248222580,
   3835390401, 4022224774, 264347078, 604807628, 770255983, 1249150122, 1555081692, 1996064986,
   2554220882, 2821834349, 2952996808, 3210313671, 3336571891, 3584528711, 113926993, 338241895,
   666307205, 773529912, 1294757372, 1396182291, 1695183700, 1986661051, 2177026350, 2456956037,
   2730485921, 2820302411, 3259730800, 3345764771, 3516065817, 3600352804, 4094571909, 275423344,
   430227734, 506948616, 659060556, 883997877, 958139571, 1322822218, 1537002063, 1747873779,
   1955562222, 2024104815, 2227730452, 2361852424, 2428436474, 2756734187, 3204031479, 3329325298]

/-- The SHA-256 initial hash value. -/
def sha256H0 : List Nat :=
  [1779033703, 3144134277, 1013904242, 2773480762, 1359893119, 2600822924, 528734635, 1541459225]

/-- SHA-256 Σ0. -/
def bSigma0 (x : Nat) : Nat := rotr32 x 2 ^^^ rotr32 x 13 ^^^ rotr32 x 22

/-- SHA-256 Σ1. -/
def bSigma1 (x : Nat) : Nat := rotr32 x 6 ^^^ rotr32 x 11 ^^^ rotr32 x 25

/-- SHA-256 σ0. -/
def sSigma0 (x : Nat) : Nat := rotr32 x 7 ^^^ rotr32 x 18 ^^^ (x >>> 3)

/-- SHA-256 σ1. -/
def sSigma1 (x : Nat) : Nat := rotr32 x 17 ^^^ rotr32 x 19 ^^^ (x >>> 10)

/-- SHA-256 Ch. -/
def sha256Ch (x y z : Nat) : Nat := (x &&& y) ^^^ ((x ^^^ 4294967295) &&& z)

/-- SHA-256 Maj. -/
def sha256Maj (x y z : Nat) : Nat := (x &&& y) ^^^ (x &&& z) ^^^ (y &&& z)

/-- One message-schedule extension step on the reversed schedule list
(head is the most recent word). -/
def sha256ExtendStep (r : List Nat) : List Nat :=
  add32 (add32 (sSigma1 (r.getD 1 0)) (r.getD 6 0))
        (add32 (sSigma0 (r.getD 14 0)) (r.getD 15 0)) :: r

/-- Iterate a function `n` times. -/
def iterN (f : α → α) : Nat → α → α
  | 0, a => a
  | n + 1, a => iterN f n (f a)

/-- The full 64-word message schedule of one 16-word block. -/
def sha256Schedule (block : List Nat) : List Nat :=
  (iterN sha256ExtendStep 48 block.reverse).reverse

/-- One SHA-256 compression round on the 8-word working state. -/
def sha256Round (st : List Nat) (wk : Nat × Nat) : List Nat :=
  match st with
  | [a, b, c, d, e, f, g, h] =>
    let t1 := add32 h (add32 (bSigma1 e) (add32 (sha256Ch e f g) (add32 wk.1 wk.2)))
    let t2 := add32 (bSigma0 a) (sha256Maj a b c)
    [add32 t1 t2, a, b, c, add32 d t1, e, f, g]
  | other => other

/-- SHA-256 compression of one 16-word block into the chaining value. -/
def sha256Compress (h : List Nat) (block : List Nat) : List Nat :=
  let st := ((sha256Schedule block).zip sha256K).foldl sha256Round h
  (h.zip st).map (fun p => add32 p.1 p.2)

/-- SHA-256 padding: append `128`, zeros to 56 mod 64 bytes, and the
big-endian 64-bit bit length. -/
def sha256Pad (msg : List Nat) : List Nat :=
  msg ++ 128 :: List.replicate ((119 - msg.length % 64) % 64) 0 ++ toBytes8BE (msg.length * 8)

/-- SHA-256 of a byte list, as a 32-byte list. -/
def sha256 (msg : List Nat) : List Nat :=
  List.flatten
    ((foldChunks 63 (fun h block => sha256Compress h (bytesToWordsBE block))
        sha256H0 (sha256Pad msg)).map wordToBytesBE)

/-- FIPS 180-4 test vector: SHA-256 of the empty message. -/
theorem sha256_vector_empty :
    sha256 [] =
      [227, 176, 196, 66, 152, 252, 28, 20, 154, 251, 244, 200, 153, 111, 185, 36,
       39, 174, 65, 228, 100, 155, 147, 76, 164, 149, 153, 27, 120, 82, 184, 85] := by
  decide

/-- FIPS 180-4 test vector: SHA-256 of the ASCII bytes of "abc". -/
theorem sha256_vector_abc :
    sha256 [97, 98, 99] =
      [186, 120, 22, 191, 143, 1, 207, 234, 65, 65, 64, 222, 93, 174, 34, 35,
       176, 3, 97, 163, 150, 23, 122, 156, 180, 16, 255, 97, 242, 0, 21, 173] := by
  decide

/-! ## Keccak-f[1600] sponge: legacy Keccak-256 (padding byte `1`,
Sui's `hash::keccak256`) and SHA3-256 (padding byte `6`, Node's
`crypto.createHash('sha3-256')`). The state is 25 lanes of 64 bits,
indexed by `x + 5 * y`. -/

/-- The 24 Keccak-f round constants. -/
def keccakRC : List Nat :=
  [1, 32898, 9223372036854808714, 9223372039002292224,
   32907, 2147483649, 9223372039002292353, 9223372036854808585,
   138, 136, 2147516425, 2147483658,
   2147516555, 9223372036854775947, 9223372036854808713, 9223372036854808579,
   9223372036854808578, 9223372036854775936, 32778, 9223372039002259466,
   9223372039002292353, 9223372036854808704, 2147483649, 9223372039002292232]

/-- The ρ rotation offset of the lane at index `x + 5 * y`. -/
def keccakRho : Nat → Nat
  | 1 => 1
  | 2 => 62
  | 3 => 28
  | 4 => 27
  | 5 => 36
  | 6 => 44
  | 7 => 6
  | 8 => 55
  | 9 => 20
  | 10 => 3
  | 11 => 10
  | 12 => 43
  | 13 => 25
  | 14 => 39
  | 15 => 41
  | 16 => 45
  | 17 => 15
  | 18 => 21
  | 19 => 8
  | 20 => 18
  | 21 => 2
  | 22 => 61
  | 23 => 56
  | 24 => 14
  | _ => 0

/-- Lane `(x, y)` of a Keccak state, coordinates taken mod 5. -/
def lane (s : List Nat) (x y : Nat) : Nat := s.getD (x % 5 + 5 * (y % 5)) 0

/-- Keccak θ step. -/
def keccakTheta (s : List Nat) : List Nat :=
  let c := fun x => lane s x 0 ^^^ lane s x 1 ^^^ lane s x 2 ^^^ lane s x 3 ^^^ lane s x 4
  let d := fun x => c ((x + 4) % 5) ^^^ rotl64 (c ((x + 1) % 5)) 1
  (List.range 25).map (fun i => s.getD i 0 ^^^ d (i % 5))

/-- Keccak ρ and π steps combined: the lane at `(X, Y)` of the result is
the lane at `((X + 3Y) mod 5, X)` of the input, rotated by its ρ offset. -/
def keccakRhoPi (s : List Nat) : List Nat :=
  (List.range 25).map (fun j =>
    let bx := j % 5
    let byy := j / 5
    let ax := (bx + 3 * byy) % 5
    let ay := bx
    rotl64 (lane s ax ay) (keccakRho (ax + 5 * ay)))

/-- Keccak χ step. -/
def keccakChi (s : List Nat) : List Nat :=
  (List.range 25).map (fun j =>
    let x := j % 5
    let y := j / 5
    lane s x y ^^^ ((lane s (x + 1) y ^^^ (w64 - 1)) &&& lane s (x + 2) y))

/-- Keccak ι step: XOR the round constant into lane `(0, 0)`. -/
def keccakIota (rc : Nat) : List Nat → List Nat
  | a :: rest => (a ^^^ rc) :: rest
  | [] => []

/-- The full Keccak-f[1600] permutation: 24 rounds of θ, ρ, π, χ, ι. -/
def keccakF (s : List Nat) : List Nat :=
  keccakRC.foldl (fun st rc => keccakIota rc (keccakChi (keccakRhoPi (keccakTheta st)))) s

/-- Decode 8 bytes as a little-endian 64-bit lane. -/
def bytesToLaneLE (l : List Nat) : Nat := l.foldr (fun b acc => b + 256 * acc) 0

/-- Encode a 64-bit lane as 8 little-endian bytes. -/
def laneToBytesLE (x : Nat) : List Nat :=
  [x % 256, x / 256 % 256, x / 65536 % 256, x / 16777216 % 256,
   x / 4294967296 % 256, x / 1099511627776 % 256,
   x / 281474976710656 % 256, x / 72057594037927936 % 256]

/-- Split one 136-byte rate block into 17 little-endian lanes. -/
def blockToLanes (block : List Nat) : List Nat :=
  (List.range 17).map (fun i => bytesToLaneLE ((block.drop (8 * i)).take 8))

/-- Absorb one rate block: XOR its lanes into the state and permute. -/
def keccakAbsorbBlock (s : List Nat) (block : List Nat) : List Nat :=
  let lanes := blockToLanes block
  keccakF ((List.range 25).map (fun i => s.getD i 0 ^^^ lanes.getD i 0))

/-- Multi-rate padding `pad10*1` with domain-separation byte `ds`
(rate 136 bytes): `ds` then zeros, the final byte ORed with `128`. -/
def keccakPad (ds : Nat) (msg : List Nat) : List Nat :=
  let padLen := 136 - msg.length % 136
  if padLen = 1 then msg ++ [ds + 128]
  else msg ++ ds :: List.replicate (padLen - 2) 0 ++ [128]

/-- The 256-bit Keccak sponge with domain byte `ds`: absorb all padded
blocks from the zero state and squeeze the first four lanes (32 bytes). -/
def keccakSponge (ds : Nat) (msg : List Nat) : List Nat :=
  let final := foldChunks 135 keccakAbsorbBlock (List.replicate 25 0) (keccakPad ds msg)
  List.flatten ((final.take 4).map laneToBytesLE)

/-- Legacy Keccak-256 (Ethereum's and Sui's `keccak256`). -/
def keccak256 (msg : List Nat) : List Nat := keccakSponge 1 msg

/-- SHA3-256 (FIPS 202), the algorithm Node.js returns for
`crypto.createHash('sha3-256')`. -/
def sha3_256 (msg : List Nat) : List Nat := keccakSponge 6 msg

/-- Test vector: legacy Keccak-256 of the empty message. -/
theorem keccak256_vector_empty :
    keccak256 [] =
      [197, 210, 70, 1, 134, 247, 35, 60, 146, 126, 125, 178, 220, 199, 3, 192,
       229, 0, 182, 83, 202, 130, 39, 59, 123, 250, 216, 4, 93, 133, 164, 112] := by
  decide

/-- Test vector: legacy Keccak-256 of the ASCII bytes of "abc". -/
theorem keccak256_vector_abc :
    keccak256 [97, 98, 99] =
      [78, 3, 101, 122, 234, 69, 169, 79, 199, 212, 123, 168, 38, 200, 214, 103,
       192, 209, 230, 227, 58, 100, 160, 54, 236, 68, 245, 143, 161, 45, 108, 69] := by
  decide

/-- FIPS 202 test vector: SHA3-256 of the empty message. -/
theorem sha3_256_vector_empty :
    sha3_256 [] =
      [167, 255, 198, 248, 191, 30, 215, 102, 81, 193, 71, 86, 160, 97, 214, 98,
       245, 128, 255, 77, 228, 59, 73, 250, 130, 216, 10, 75, 128, 248, 67, 74] := by
  decide

/-- FIPS 202 test vector: SHA3-256 of the ASCII bytes of "abc". -/
theorem sha3_256_vector_abc :
    sha3_256 [97, 98, 99] =
      [58, 152, 93, 167, 79, 226, 37, 178, 4, 92, 23, 45, 107, 211, 144, 189,
       133, 95, 8, 110, 62, 157, 82, 91, 70, 191, 226, 69, 17, 67, 21, 50] := by
  decide

/-! ## Hash utilities of the two ledgers

`src/src/utils/HashUtility.js` (JS, used by the coordinator and by the
EVM-side tooling): `keccak256` calls Node's `crypto.createHash('sha3-256')`
(FIPS 202 SHA3-256), `sha256` calls `crypto.createHash('sha256')`.
String inputs are hashed over their UTF-8 bytes; the embeddings operate
on the byte lists directly.

`src/unnamed/part_014` (`sui_resolver::hash_utility`, Move):
`calculate_hash` is `hash::keccak256` (legacy Keccak-256), and
`calculate_sha256_hash` is documented as SHA-256 but its body is
`hash::keccak256(key_bytes)` — the source comments
"Sui doesn't have native sha256, so we use keccak256 for now". -/

/-- Embeds `HashUtility.keccak256` (JS): Node's `sha3-256` digest of the input bytes. -/
def hashUtility_keccak256 (input : List Nat) : List Nat := sha3_256 input

/-- Embeds `HashUtility.sha256` (JS): SHA-256 digest of the input bytes. -/
def hashUtility_sha256 (input : List Nat) : List Nat := sha256 input

/-- Embeds `HashUtility.verifySecretKeccak256` (JS): recompute and compare buffers. -/
def verifySecretKeccak256 (secret expectedHash : List Nat) : Bool :=
  hashUtility_keccak256 secret == expectedHash

/-- Embeds `HashUtility.verifySecretSha256` (JS): recompute and compare buffers. -/
def verifySecretSha256 (secret expectedHash : List Nat) : Bool :=
  hashUtility_sha256 secret == expectedHash

/-- Embeds `hash_utility::calculate_hash` (Move): keccak256 of the key bytes. -/
def calculate_hash (key : List Nat) : List Nat := keccak256 key

/-- Embeds `hash_utility::calculate_sha256_hash` (Move): despite the name, the
body is `hash::keccak256(key_bytes)` (source comment: "we use keccak256
for now"). -/
def calculate_sha256_hash (key : List Nat) : List Nat := keccak256 key

/-- Embeds `hash_utility::verify_secret` (Move). -/
def verify_secret (secret expectedHash : List Nat) : Bool :=
  calculate_hash secret == expectedHash

/-- Embeds `hash_utility::verify_secret_sha256` (Move). -/
def verify_secret_sha256 (secret expectedHash : List Nat) : Bool :=
  calculate_sha256_hash secret == expectedHash

/-- C1: the claim says the SHA-256 digest computed by the hash utilities of
the two ledgers is the same 32-byte value, equal to SHA-256 of the secret's
bytes. The code violates it: the JS utility `HashUtility.sha256` is real
SHA-256, but the Move utility `calculate_sha256_hash` computes keccak256
(contradicting its own name and doc comment), so at the secret "abc"
(bytes `[97, 98, 99]`) the two ledgers' "SHA-256" digests differ. -/
theorem c1_sui_sha256_utility_disagrees_with_evm :
    hashUtility_sha256 [97, 98, 99] = sha256 [97, 98, 99] ∧
    calculate_sha256_hash [97, 98, 99] = keccak256 [97, 98, 99] ∧
    calculate_sha256_hash [97, 98, 99] ≠ hashUtility_sha256 [97, 98, 99] := by
  exact ⟨rfl, rfl, by decide⟩

/-- C9: round-trip — verifying a secret against the digest computed from
that same secret with the same algorithm returns `true`, for both
`verifySecretKeccak256`/`keccak256` and `verifySecretSha256`/`sha256`
of the JS `HashUtility`. -/
theorem c9_verify_roundtrip (secret : List Nat) :
    verifySecretKeccak256 secret (hashUtility_keccak256 secret) = true ∧
    verifySecretSha256 secret (hashUtility_sha256 secret) = true := by
  constructor <;> simp [verifySecretKeccak256, verifySecretSha256]

/-! ## Result plumbing for the contract embeddings -/

deriving instance DecidableEq for Except

/-- Whether an `Except` result is a success. -/
def exceptOk : Except ε α → Bool
  | .ok _ => true
  | .error _ => false

/-! ## EVM escrow contract `ETHWSUISwap` (`src/unnamed/part_001`)

One `Swap` mapping entry plus the contract-level fee configuration.
Addresses are `Nat`; a `secret` is a `bytes32` value given as its
32-byte list; `block.timestamp` is the `now` argument. Amounts are
`Nat` (Solidity 0.8 checked `uint256` arithmetic never wraps; the fee
computation `amount * swapFee / 10000` stays far below `2 ^ 256` for
any representable amount, so `Nat` agrees with it). The `require`
guards are evaluated in source order (modifiers `validSwap`,
`withdrawable` / `refundable`, then the body's checks). -/

/-- The `Swap` struct of `ETHWSUISwap`. `swapTypeEthToWsui` is `true` for
`SwapType.ETH_TO_WSUI` and `false` for `SwapType.WSUI_TO_ETH`. -/
structure EvmSwap where
  secretHash : List Nat
  ethAmount : Nat
  wsuiAmount : Nat
  initiator : Nat
  participant : Nat
  timelock : Nat
  withdrawn : Bool
  refunded : Bool
  swapTypeEthToWsui : Bool
deriving DecidableEq

/-- The contract state relevant to one swap: the mapping entry plus the
fee rate (basis points) and fee recipient. -/
structure EvmSwapContract where
  swap : EvmSwap
  swapFee : Nat
  feeRecipient : Nat
deriving DecidableEq

/-- The gross amount moved by `withdraw`: `ethAmount` for an
`ETH_TO_WSUI` swap, `wsuiAmount` for a `WSUI_TO_ETH` swap. -/
def evmWithdrawAmount (c : EvmSwapContract) : Nat :=
  if c.swap.swapTypeEthToWsui then c.swap.ethAmount else c.swap.wsuiAmount

/-- Embeds `ETHWSUISwap.withdraw(swapId, secret)` at time `now` called by
`sender`. On success returns the updated contract state, the net amount
transferred to the participant, and the fee transferred to the fee
recipient; on a failed `require` returns its revert message. -/
def evmWithdraw (c : EvmSwapContract) (now sender : Nat) (secret : List Nat) :
    Except String (EvmSwapContract × Nat × Nat) :=
  if c.swap.timelock = 0 then .error "ETHWSUISwap: swap does not exist"
  else if c.swap.withdrawn then .error "ETHWSUISwap: already withdrawn"
  else if c.swap.refunded then .error "ETHWSUISwap: already refunded"
  else if c.swap.timelock < now then .error "ETHWSUISwap: timelock expired"
  else if sha256 secret ≠ c.swap.secretHash then .error "ETHWSUISwap: invalid secret"
  else if sender ≠ c.swap.participant then .error "ETHWSUISwap: only participant can withdraw"
  else
    let amount := evmWithdrawAmount c
    let fee := amount * c.swapFee / 10000
    let netAmount := amount - fee
    .ok ({ c with swap := { c.swap with withdrawn := true } }, netAmount, fee)

/-- Embeds `ETHWSUISwap.refund(swapId)` at time `now` called by `sender`. On
success returns the updated contract state (the full locked amount goes
back to the initiator). -/
def evmRefund (c : EvmSwapContract) (now sender : Nat) :
    Except String EvmSwapContract :=
  if c.swap.timelock = 0 then .error "ETHWSUISwap: swap does not exist"
  else if c.swap.withdrawn then .error "ETHWSUISwap: already withdrawn"
  else if c.swap.refunded then .error "ETHWSUISwap: already refunded"
  else if now ≤ c.swap.timelock then .error "ETHWSUISwap: timelock not expired"
  else if sender ≠ c.swap.initiator then .error "ETHWSUISwap: only initiator can refund"
  else .ok { c with swap := { c.swap with refunded := true } }

/-! ## Sui escrow contract `safe_escrow` (`src/contracts/sui/sources/safe_escrow.move`)

A shared `SafeEscrow` object plus the `SafeOwnerCap` capability.
Object ids and addresses are `Nat`; the `clock` is the `now` argument
(milliseconds). The `withdraw` entry point takes no clock at all —
its guards are only the two terminal flags and the secret check. -/

/-- The `SafeEscrow` object. `amountLocked` is `coin::value(locked_coin)`. -/
structure SafeEscrow where
  id : Nat
  owner : Nat
  beneficiary : Nat
  amountLocked : Nat
  secret_hash : List Nat
  start_time : Nat
  lock_duration : Nat
  is_withdrawn : Bool
  is_refunded : Bool
  use_sha256 : Bool
deriving DecidableEq

/-- The `SafeOwnerCap` capability returned by `create_safe*`. -/
structure SafeOwnerCap where
  safe_id : Nat
deriving DecidableEq

/-- Embeds `safe_escrow::withdraw(safe, secret, ctx)`. The abort codes are the
module's error constants. Note there is no clock parameter and no
deadline guard; the secret check dispatches on `use_sha256`, but both
`hash_utility` verifiers compute keccak256. On success returns the
updated safe and the amount extracted. -/
def suiWithdraw (safe : SafeEscrow) (secret : List Nat) :
    Except Nat (SafeEscrow × Nat) :=
  if safe.is_withdrawn then .error 4
  else if safe.is_refunded then .error 5
  else if ¬ ((if safe.use_sha256 then verify_secret_sha256 secret safe.secret_hash
              else verify_secret secret safe.secret_hash) = true) then .error 1
  else .ok ({ safe with is_withdrawn := true }, safe.amountLocked)

/-- Embeds `safe_escrow::refund(safe, owner_cap, clock, ctx)` with
`clock::timestamp_ms(clock) = now`. The deadline guard is
`now ≥ start_time + lock_duration` (non-strict). -/
def suiRefund (safe : SafeEscrow) (cap : SafeOwnerCap) (now : Nat) :
    Except Nat (SafeEscrow × Nat) :=
  if safe.is_withdrawn then .error 4
  else if safe.is_refunded then .error 5
  else if cap.safe_id ≠ safe.id then .error 3
  else if now < safe.start_time + safe.lock_duration then .error 2
  else .ok ({ safe with is_refunded := true }, safe.amountLocked)

/-! ## C2, C3: time guards of withdraw and refund -/

/-- A concrete Sui safe: hash of the secret "abc", deadline at 1000 ms. -/
def c2SuiSafe : SafeEscrow :=
  { id := 1, owner := 10, beneficiary := 11, amountLocked := 500,
    secret_hash := calculate_sha256_hash [97, 98, 99],
    start_time := 0, lock_duration := 1000,
    is_withdrawn := false, is_refunded := false, use_sha256 := true }

/-- C2 counterexample: the claim says a withdraw past the deadline is
refused on every escrow. The Sui `withdraw` consults no clock: on
`c2SuiSafe`, whose deadline is 1000 ms, a withdraw with the correct
secret succeeds and marks the safe withdrawn — in particular when
attempted at 2000 ms, past the deadline. -/
theorem c2_sui_withdraw_ignores_deadline :
    suiWithdraw c2SuiSafe [97, 98, 99] =
      .ok ({ c2SuiSafe with is_withdrawn := true }, 500) ∧
    2000 > c2SuiSafe.start_time + c2SuiSafe.lock_duration := by
  exact ⟨by decide, by decide⟩

/-- C2 amended: on the EVM contract, a withdraw attempted past the
timelock always fails (no state is produced, so the swap is not marked
withdrawn); the Sui `withdraw` has no deadline guard at all — with no
terminal flag set and a valid secret it succeeds at any time, setting
only `is_withdrawn`. -/
theorem c2_withdraw_deadline_behaviour
    (c : EvmSwapContract) (now sender : Nat) (secret : List Nat)
    (safe : SafeEscrow) (s2 : List Nat)
    (hLate : now > c.swap.timelock)
    (hW : safe.is_withdrawn = false) (hR : safe.is_refunded = false)
    (hS : (if safe.use_sha256 then verify_secret_sha256 s2 safe.secret_hash
           else verify_secret s2 safe.secret_hash) = true) :
    exceptOk (evmWithdraw c now sender secret) = false ∧
    suiWithdraw safe s2 = .ok ({ safe with is_withdrawn := true }, safe.amountLocked) := by
  constructor
  · simp only [evmWithdraw]
    split_ifs with h1 h2 h3 <;> rfl
  · simp only [suiWithdraw, hW, hR, hS]
    simp

/-- C2 witness: the amended theorem applied to a concrete late EVM
withdraw (timelock 5, attempted at 6) and a concrete valid Sui
withdraw. -/
theorem c2_withdraw_deadline_behaviour_witness :
    exceptOk (evmWithdraw
        { swap := { secretHash := [], ethAmount := 7, wsuiAmount := 8, initiator := 1,
                    participant := 2, timelock := 5, withdrawn := false, refunded := false,
                    swapTypeEthToWsui := true }, swapFee := 30, feeRecipient := 9 }
        6 2 []) = false ∧
    suiWithdraw c2SuiSafe [97, 98, 99] =
      .ok ({ c2SuiSafe with is_withdrawn := true }, c2SuiSafe.amountLocked) :=
  c2_withdraw_deadline_behaviour _ 6 2 [] c2SuiSafe [97, 98, 99]
    (by decide) (by decide) (by decide) (by decide)

/-- A concrete Sui safe whose deadline is exactly at 1000 ms. -/
def c3SuiSafe : SafeEscrow :=
  { id := 2, owner := 20, beneficiary := 21, amountLocked := 300,
    secret_hash := [], start_time := 100, lock_duration := 900,
    is_withdrawn := false, is_refunded := false, use_sha256 := true }

/-- C3 counterexample: the claim says a refund at exactly the deadline
instant is refused. The Sui `refund` guard is non-strict
(`now ≥ start_time + lock_duration`): with the matching owner capability,
a refund at exactly `start_time + lock_duration = 1000` succeeds. -/
theorem c3_sui_refund_at_exact_deadline_succeeds :
    suiRefund c3SuiSafe { safe_id := 2 } 1000 =
      .ok ({ c3SuiSafe with is_refunded := true }, 300) ∧
    1000 = c3SuiSafe.start_time + c3SuiSafe.lock_duration := by
  exact ⟨by decide, by decide⟩

/-- C3 amended: refund succeeds exactly when no terminal flag is set,
the caller holds ownership, and the deadline test passes — but the
deadline test is strict on the EVM contract (`now > timelock`, so a
refund at the exact deadline is refused there) and non-strict on the
Sui contract (`now ≥ start_time + lock_duration`, so a refund at the
exact deadline succeeds there). -/
theorem c3_refund_characterization
    (c : EvmSwapContract) (now sender : Nat)
    (safe : SafeEscrow) (cap : SafeOwnerCap) (snow : Nat) :
    (exceptOk (evmRefund c now sender) = true ↔
      (c.swap.timelock ≠ 0 ∧ c.swap.withdrawn = false ∧ c.swap.refunded = false ∧
       now > c.swap.timelock ∧ sender = c.swap.initiator)) ∧
    (exceptOk (suiRefund safe cap snow) = true ↔
      (safe.is_withdrawn = false ∧ safe.is_refunded = false ∧
       cap.safe_id = safe.id ∧ snow ≥ safe.start_time + safe.lock_duration)) := by
  constructor
  · simp only [evmRefund]
    split_ifs with h1 h2 h3 h4 h5
    · simp only [exceptOk]
      exact iff_of_false (by simp) (fun h => h.1 h1)
    · simp only [exceptOk]
      exact iff_of_false (by simp) (fun h => by simp [h2] at h)
    · simp only [exceptOk]
      exact iff_of_false (by simp) (fun h => by simp [h3] at h)
    · simp only [exceptOk]
      exact iff_of_false (by simp) (fun h => by omega)
    · simp only [exceptOk]
      exact iff_of_false (by simp) (fun h => h5 h.2.2.2.2)
    · simp only [exceptOk]
      exact iff_of_true trivial
        ⟨h1, by simpa using h2, by simpa using h3, by omega, by omega⟩
  · simp only [suiRefund]
    split_ifs with h1 h2 h3 h4
    · simp only [exceptOk]
      exact iff_of_false (by simp) (fun h => by simp [h1] at h)
    · simp only [exceptOk]
      exact iff_of_false (by simp) (fun h => by simp [h2] at h)
    · simp only [exceptOk]
      exact iff_of_false (by simp) (fun h => h3 h.2.2.1)
    · simp only [exceptOk]
      exact iff_of_false (by simp) (fun h => by omega)
    · simp only [exceptOk]
      exact iff_of_true trivial
        ⟨by simpa using h1, by simpa using h2, by omega, by omega⟩

/-! ## C4: terminal flags under arbitrary operation sequences -/

/-- An external call to the EVM contract: `withdraw` or `refund`, with
the caller, timestamp, and (for withdraw) the revealed secret. -/
inductive EvmOp where
  | withdrawOp (now sender : Nat) (secret : List Nat)
  | refundOp (now sender : Nat)

/-- Apply one call to the EVM contract: a reverted call (error) leaves
the state unchanged, a successful one installs the new state. -/
def evmApply (c : EvmSwapContract) (op : EvmOp) : EvmSwapContract :=
  match op with
  | .withdrawOp now sender secret =>
      match evmWithdraw c now sender secret with
      | .ok (c2, _, _) => c2
      | .error _ => c
  | .refundOp now sender =>
      match evmRefund c now sender with
      | .ok c2 => c2
      | .error _ => c

/-- Run a sequence of calls against the EVM contract. -/
def evmRun (c : EvmSwapContract) (ops : List EvmOp) : EvmSwapContract :=
  ops.foldl evmApply c

/-- An external call to the Sui module: `withdraw` or `refund`. -/
inductive SuiOp where
  | withdrawOp (secret : List Nat)
  | refundOp (cap : SafeOwnerCap) (now : Nat)

/-- Apply one call to a Sui safe: an aborted call leaves the object
unchanged, a successful one installs the new object state. -/
def suiApply (safe : SafeEscrow) (op : SuiOp) : SafeEscrow :=
  match op with
  | .withdrawOp secret =>
      match suiWithdraw safe secret with
      | .ok (s2, _) => s2
      | .error _ => safe
  | .refundOp cap now =>
      match suiRefund safe cap now with
      | .ok (s2, _) => s2
      | .error _ => safe

/-- Run a sequence of calls against a Sui safe. -/
def suiRun (safe : SafeEscrow) (ops : List SuiOp) : SafeEscrow :=
  ops.foldl suiApply safe

/-- One EVM call preserves flag exclusivity and never clears a flag. -/
theorem evmApply_flags (c : EvmSwapContract) (op : EvmOp) :
    (¬ (c.swap.withdrawn = true ∧ c.swap.refunded = true) →
      ¬ ((evmApply c op).swap.withdrawn = true ∧ (evmApply c op).swap.refunded = true)) ∧
    (c.swap.withdrawn = true → (evmApply c op).swap.withdrawn = true) ∧
    (c.swap.refunded = true → (evmApply c op).swap.refunded = true) := by
  cases op with
  | withdrawOp now sender secret =>
      simp only [evmApply, evmWithdraw]
      split_ifs with h1 h2 h3 h4 h5 h6 <;> simp_all
  | refundOp now sender =>
      simp only [evmApply, evmRefund]
      split_ifs with h1 h2 h3 h4 h5 <;> simp_all

/-- One Sui call preserves flag exclusivity and never clears a flag. -/
theorem suiApply_flags (safe : SafeEscrow) (op : SuiOp) :
    (¬ (safe.is_withdrawn = true ∧ safe.is_refunded = true) →
      ¬ ((suiApply safe op).is_withdrawn = true ∧ (suiApply safe op).is_refunded = true)) ∧
    (safe.is_withdrawn = true → (suiApply safe op).is_withdrawn = true) ∧
    (safe.is_refunded = true → (suiApply safe op).is_refunded = true) := by
  cases op with
  | withdrawOp secret =>
      simp only [suiApply, suiWithdraw]
      split_ifs with h1 h2 h3 <;> simp_all
  | refundOp cap now =>
      simp only [suiApply, suiRefund]
      split_ifs with h1 h2 h3 h4 <;> simp_all

/-- EVM runs preserve flag exclusivity and monotonicity. -/
theorem evmRun_flags (ops : List EvmOp) (c : EvmSwapContract) :
    (¬ (c.swap.withdrawn = true ∧ c.swap.refunded = true) →
      ¬ ((evmRun c ops).swap.withdrawn = true ∧ (evmRun c ops).swap.refunded = true)) ∧
    (c.swap.withdrawn = true → (evmRun c ops).swap.withdrawn = true) ∧
    (c.swap.refunded = true → (evmRun c ops).swap.refunded = true) := by
  induction ops generalizing c with
  | nil => exact ⟨fun h => h, fun h => h, fun h => h⟩
  | cons op rest ih =>
      have hstep := evmApply_flags c op
      have htail := ih (evmApply c op)
      exact ⟨fun h => htail.1 (hstep.1 h),
             fun h => htail.2.1 (hstep.2.1 h),
             fun h => htail.2.2 (hstep.2.2 h)⟩

/-- Sui runs preserve flag exclusivity and monotonicity. -/
theorem suiRun_flags (ops : List SuiOp) (safe : SafeEscrow) :
    (¬ (safe.is_withdrawn = true ∧ safe.is_refunded = true) →
      ¬ ((suiRun safe ops).is_withdrawn = true ∧ (suiRun safe ops).is_refunded = true)) ∧
    (safe.is_withdrawn = true → (suiRun safe ops).is_withdrawn = true) ∧
    (safe.is_refunded = true → (suiRun safe ops).is_refunded = true) := by
  induction ops generalizing safe with
  | nil => exact ⟨fun h => h, fun h => h, fun h => h⟩
  | cons op rest ih =>
      have hstep := suiApply_flags safe op
      have htail := ih (suiApply safe op)
      exact ⟨fun h => htail.1 (hstep.1 h),
             fun h => htail.2.1 (hstep.2.1 h),
             fun h => htail.2.2 (hstep.2.2 h)⟩

/-- C4: on both ledgers, starting from any state in which the terminal
flags are not both set, no sequence of `withdraw` and `refund` calls can
ever set both `withdrawn` and `refunded` on the same escrow, and once a
flag is set no call clears it. -/
theorem c4_terminal_flags_exclusive_and_monotone
    (c : EvmSwapContract) (ops : List EvmOp)
    (safe : SafeEscrow) (sops : List SuiOp)
    (hEvm : ¬ (c.swap.withdrawn = true ∧ c.swap.refunded = true))
    (hSui : ¬ (safe.is_withdrawn = true ∧ safe.is_refunded = true)) :
    (¬ ((evmRun c ops).swap.withdrawn = true ∧ (evmRun c ops).swap.refunded = true) ∧
     (c.swap.withdrawn = true → (evmRun c ops).swap.withdrawn = true) ∧
     (c.swap.refunded = true → (evmRun c ops).swap.refunded = true)) ∧
    (¬ ((suiRun safe sops).is_withdrawn = true ∧ (suiRun safe sops).is_refunded = true) ∧
     (safe.is_withdrawn = true → (suiRun safe sops).is_withdrawn = true) ∧
     (safe.is_refunded = true → (suiRun safe sops).is_refunded = true)) :=
  ⟨⟨(evmRun_flags ops c).1 hEvm, (evmRun_flags ops c).2.1, (evmRun_flags ops c).2.2⟩,
   ⟨(suiRun_flags sops safe).1 hSui, (suiRun_flags sops safe).2.1, (suiRun_flags sops safe).2.2⟩⟩

/-- C4 witness: the theorem applied to concrete fresh escrows and a
concrete operation sequence — a successful Sui withdraw followed by a
refund attempt (which aborts), and an EVM refund after the deadline
followed by a late withdraw attempt (which reverts). -/
theorem c4_terminal_flags_witness :
    (¬ (((evmRun
        { swap := { secretHash := [], ethAmount := 7, wsuiAmount := 8, initiator := 1,
                    participant := 2, timelock := 5, withdrawn := false, refunded := false,
                    swapTypeEthToWsui := true }, swapFee := 30, feeRecipient := 9 }
        [.refundOp 6 1, .withdrawOp 7 2 []]).swap.withdrawn = true ∧
      (evmRun
        { swap := { secretHash := [], ethAmount := 7, wsuiAmount := 8, initiator := 1,
                    participant := 2, timelock := 5, withdrawn := false, refunded := false,
                    swapTypeEthToWsui := true }, swapFee := 30, feeRecipient := 9 }
        [.refundOp 6 1, .withdrawOp 7 2 []]).swap.refunded = true))) ∧
    (¬ ((suiRun c2SuiSafe [.withdrawOp [97, 98, 99], .refundOp { safe_id := 1 } 5000]).is_withdrawn = true ∧
        (suiRun c2SuiSafe [.withdrawOp [97, 98, 99], .refundOp { safe_id := 1 } 5000]).is_refunded = true)) :=
  ⟨((c4_terminal_flags_exclusive_and_monotone _
      [.refundOp 6 1, .withdrawOp 7 2 []] c2SuiSafe
      [.withdrawOp [97, 98, 99], .refundOp { safe_id := 1 } 5000]
      (by decide) (by decide)).1).1,
   ((c4_terminal_flags_exclusive_and_monotone
      { swap := { secretHash := [], ethAmount := 7, wsuiAmount := 8, initiator := 1,
                  participant := 2, timelock := 5, withdrawn := false, refunded := false,
                  swapTypeEthToWsui := true }, swapFee := 30, feeRecipient := 9 }
      [.refundOp 6 1, .withdrawOp 7 2 []] c2SuiSafe
      [.withdrawOp [97, 98, 99], .refundOp { safe_id := 1 } 5000]
      (by decide) (by decide)).2).1⟩

/-! ## C5: fee arithmetic of `withdraw` -/

/-- A concrete ETH→wSUI swap of 9999 wei at the default 30 bps fee,
locked under the SHA-256 hash of a 32-byte secret of `171` bytes. -/
def c5Contract : EvmSwapContract :=
  { swap := { secretHash := sha256 (List.replicate 32 171), ethAmount := 9999,
              wsuiAmount := 1, initiator := 1, participant := 2, timelock := 1000,
              withdrawn := false, refunded := false, swapTypeEthToWsui := true },
    swapFee := 30, feeRecipient := 9 }

/-- C5 counterexample: the claim says the net paid equals
`floor(A * (10000 - fee_bps) / 10000)`. The code instead computes
`fee = floor(A * fee_bps / 10000)` and pays `net = A - fee`. At
`A = 9999`, `fee_bps = 30` the code pays net 9970 and fee 29, while the
claimed formula gives net `floor(9999 * 9970 / 10000) = 9969`. -/
theorem c5_net_formula_counterexample :
    evmWithdraw c5Contract 500 2 (List.replicate 32 171) =
      .ok ({ c5Contract with
              swap := { c5Contract.swap with withdrawn := true } }, 9970, 29) ∧
    9999 * (10000 - 30) / 10000 = 9969 ∧ (9970 : Nat) ≠ 9969 := by
  exact ⟨by decide, by decide, by decide⟩

/-- C5 amended: a successful withdraw of locked amount `A` at fee rate
`fee_bps` pays the fee recipient `fee = floor(A * fee_bps / 10000)` and
the participant `net = A - fee` (not `floor(A * (10000 - fee_bps) / 10000)`,
which differs whenever `10000` does not divide `A * fee_bps`); provided
`fee_bps ≤ 10000`, `fee + net = A`, so no smallest unit is lost. -/
theorem c5_fee_split
    (c : EvmSwapContract) (now sender : Nat) (secret : List Nat)
    (hEx : c.swap.timelock ≠ 0) (hW : c.swap.withdrawn = false)
    (hR : c.swap.refunded = false) (hT : now ≤ c.swap.timelock)
    (hS : sha256 secret = c.swap.secretHash) (hP : sender = c.swap.participant)
    (hFee : c.swapFee ≤ 10000) :
    evmWithdraw c now sender secret =
      .ok ({ c with swap := { c.swap with withdrawn := true } },
           evmWithdrawAmount c - evmWithdrawAmount c * c.swapFee / 10000,
           evmWithdrawAmount c * c.swapFee / 10000) ∧
    evmWithdrawAmount c * c.swapFee / 10000 +
      (evmWithdrawAmount c - evmWithdrawAmount c * c.swapFee / 10000) =
      evmWithdrawAmount c := by
  have hle : evmWithdrawAmount c * c.swapFee / 10000 ≤ evmWithdrawAmount c := by
    calc evmWithdrawAmount c * c.swapFee / 10000
        ≤ evmWithdrawAmount c * 10000 / 10000 :=
          Nat.div_le_div_right (Nat.mul_le_mul_left _ hFee)
      _ = evmWithdrawAmount c := Nat.mul_div_cancel _ (by omega)
  constructor
  · simp only [evmWithdraw]
    split_ifs with h1 h2 h3 h4 h5 h6
    · exact absurd h1 hEx
    · simp [hW] at h2
    · simp [hR] at h3
    · omega
    · exact absurd hS h5
    · exact absurd hP h6
    · rfl
  · omega

/-- C5 witness: the amended theorem applied to the concrete swap
`c5Contract`, checking `29 + 9970 = 9999`. -/
theorem c5_fee_split_witness :
    evmWithdraw c5Contract 500 2 (List.replicate 32 171) =
      .ok ({ c5Contract with swap := { c5Contract.swap with withdrawn := true } },
           evmWithdrawAmount c5Contract - evmWithdrawAmount c5Contract * 30 / 10000,
           evmWithdrawAmount c5Contract * 30 / 10000) ∧
    evmWithdrawAmount c5Contract * 30 / 10000 +
      (evmWithdrawAmount c5Contract - evmWithdrawAmount c5Contract * 30 / 10000) =
      evmWithdrawAmount c5Contract :=
  c5_fee_split c5Contract 500 2 (List.replicate 32 171)
    (by decide) (by decide) (by decide) (by decide) (by decide) (by decide) (by decide)

/-! ## `TimeoutManager` (`src/src/utils/TimeoutManager.js`)

All durations are milliseconds. The constructor's default parameter
applies only when the argument is JS `undefined`, modelled as
`Option.none`; any other string (including the empty string) is looked
up in the `configs` object literal. The JS bracket lookup
`configs[network]` consults the prototype chain: for the three own
properties it yields the profile; for a property name inherited from
`Object.prototype` (such as `"constructor"` or `"toString"`) it yields
the inherited member — a truthy function or object — so the
`|| configs.testnet` fallback does not fire; only for every other name
is it `undefined`, and the fallback yields the testnet profile. -/

/-- One network timeout profile. -/
structure TimeoutConfig where
  sourceTimeout : Nat
  destTimeout : Nat
  safetyMargin : Nat
  minTimeout : Nat
deriving DecidableEq

/-- The mainnet profile: 3 h / 30 min / 30 min / 10 min. -/
def mainnetTimeoutConfig : TimeoutConfig :=
  { sourceTimeout := 10800000, destTimeout := 1800000,
    safetyMargin := 1800000, minTimeout := 600000 }

/-- The testnet profile: 30 min / 5 min / 5 min / 2 min. -/
def testnetTimeoutConfig : TimeoutConfig :=
  { sourceTimeout := 1800000, destTimeout := 300000,
    safetyMargin := 300000, minTimeout := 120000 }

/-- The devnet profile: 10 min / 2 min / 2 min / 1 min. -/
def devnetTimeoutConfig : TimeoutConfig :=
  { sourceTimeout := 600000, destTimeout := 120000,
    safetyMargin := 120000, minTimeout := 60000 }

/-- Names of the properties every JS object literal inherits from
`Object.prototype`, all bound to truthy function or object values that a
bracket lookup finds even though they are not own properties of
`configs`. -/
def objectPrototypeMembers : List String :=
  ["constructor", "hasOwnProperty", "isPrototypeOf", "propertyIsEnumerable",
   "toLocaleString", "toString", "valueOf", "__defineGetter__",
   "__defineSetter__", "__lookupGetter__", "__lookupSetter__", "__proto__"]

/-- Value of `configs[network] || configs.testnet` in JS: either one of
the timeout profiles, or — when `network` names a property inherited
from `Object.prototype` — that inherited member itself, a truthy
function or object that carries none of the profile fields. -/
inductive JsConfigValue where
  | profile (cfg : TimeoutConfig)
  | protoMember
deriving DecidableEq

/-- Property access `value.field` expecting a number on a lookup result:
JS `undefined` (`none`) when the value is an inherited
`Object.prototype` member rather than a profile. -/
def jsField (f : TimeoutConfig → Nat) : JsConfigValue → Option Nat
  | .profile cfg => some (f cfg)
  | .protoMember => none

/-- Embeds `TimeoutManager._getTimeoutConfig(network)`:
`configs[network] || configs.testnet` under JS property-lookup
semantics — own properties first, then the prototype chain (truthy, no
fallback), and the testnet fallback only for names bound to
`undefined`. -/
def getTimeoutConfig (network : String) : JsConfigValue :=
  if network = "mainnet" then .profile mainnetTimeoutConfig
  else if network = "testnet" then .profile testnetTimeoutConfig
  else if network = "devnet" then .profile devnetTimeoutConfig
  else if network ∈ objectPrototypeMembers then .protoMember
  else .profile testnetTimeoutConfig

/-- The `TimeoutManager` instance state set by the constructor. -/
structure TimeoutManager where
  network : String
  config : JsConfigValue

/-- Embeds `new TimeoutManager(network)`; the argument is `none` for JS
`undefined`, in which case the default parameter `'testnet'` applies. -/
def mkTimeoutManager (network : Option String) : TimeoutManager :=
  let n := network.getD "testnet"
  { network := n, config := getTimeoutConfig n }

/-- Embeds `TimeoutManager.getDefaultSourceTimeout()`:
`this.config.sourceTimeout`. -/
def getDefaultSourceTimeout (tm : TimeoutManager) : Option Nat :=
  jsField TimeoutConfig.sourceTimeout tm.config

/-- Embeds `TimeoutManager.getDefaultDestTimeout()`:
`this.config.destTimeout`. -/
def getDefaultDestTimeout (tm : TimeoutManager) : Option Nat :=
  jsField TimeoutConfig.destTimeout tm.config

/-- Embeds `TimeoutManager.getSafetyMargin()`:
`this.config.safetyMargin`. -/
def getSafetyMargin (tm : TimeoutManager) : Option Nat :=
  jsField TimeoutConfig.safetyMargin tm.config

/-- Embeds `TimeoutManager.validateTimeouts(sourceTimeout, destTimeout)`: the
three checks in source order; a thrown `Error` is the `.error` case and
the final `return true` is `.ok true`. -/
def validateTimeouts (cfg : TimeoutConfig) (sourceTimeout destTimeout : Nat) :
    Except String Bool :=
  if sourceTimeout < cfg.minTimeout then
    .error "Source timeout is below minimum"
  else if destTimeout < cfg.minTimeout then
    .error "Destination timeout is below minimum"
  else if sourceTimeout ≤ destTimeout + cfg.safetyMargin then
    .error "Source timeout must be greater than destination timeout + safety margin"
  else .ok true

/-- C6 counterexample: the claim says every pair with both timeouts at
least the minimum and `source ≥ dest + safetyMargin` passes validation.
On testnet, `source = 420000`, `dest = 120000` meets all of that
(`420000 - 120000` equals the 300000 ms safety margin exactly, both are
at least the 120000 ms minimum), yet the code throws, because its guard
demands `source > dest + safetyMargin` strictly. -/
theorem c6_boundary_pair_rejected :
    (420000 ≥ testnetTimeoutConfig.minTimeout ∧
     120000 ≥ testnetTimeoutConfig.minTimeout ∧
     420000 = 120000 + testnetTimeoutConfig.safetyMargin) ∧
    exceptOk (validateTimeouts testnetTimeoutConfig 420000 120000) = false := by
  exact ⟨⟨by decide, by decide, by decide⟩, by decide⟩

/-- C6 amended: `validateTimeouts` accepts exactly the pairs in which
both timeouts are at least the network minimum and the source timeout
STRICTLY exceeds the destination timeout plus the safety margin; a pair
whose difference equals the margin is rejected. -/
theorem c6_validateTimeouts_characterization
    (cfg : TimeoutConfig) (sourceTimeout destTimeout : Nat) :
    validateTimeouts cfg sourceTimeout destTimeout = .ok true ↔
      (sourceTimeout ≥ cfg.minTimeout ∧ destTimeout ≥ cfg.minTimeout ∧
       sourceTimeout > destTimeout + cfg.safetyMargin) := by
  simp only [validateTimeouts]
  split_ifs with h1 h2 h3
  · exact iff_of_false (by simp) (by omega)
  · exact iff_of_false (by simp) (by omega)
  · exact iff_of_false (by simp) (by omega)
  · exact iff_of_true rfl ⟨by omega, by omega, by omega⟩

/-- C10 counterexample: the claim says EVERY network string outside
`{mainnet, testnet, devnet}` falls back to the testnet profile with all
getters returning the testnet values. For `network = "constructor"` —
which is outside that set — the JS lookup `configs["constructor"]`
finds the truthy inherited `Object.prototype.constructor`, the `||`
fallback never fires, and every getter returns `undefined` instead of a
testnet value. -/
theorem c10_proto_member_skips_fallback :
    ("constructor" ≠ "mainnet" ∧ "constructor" ≠ "testnet" ∧
     "constructor" ≠ "devnet") ∧
    (mkTimeoutManager (some "constructor")).config ≠
      .profile testnetTimeoutConfig ∧
    getDefaultSourceTimeout (mkTimeoutManager (some "constructor")) = none ∧
    getDefaultDestTimeout (mkTimeoutManager (some "constructor")) = none ∧
    getSafetyMargin (mkTimeoutManager (some "constructor")) = none := by
  exact ⟨⟨by decide, by decide, by decide⟩, by decide, by decide, by decide, by decide⟩

/-- C10 amended: the constructor always succeeds (it is total), and for
every network name outside `{mainnet, testnet, devnet}` the behaviour
splits: if the name is also not a property inherited from
`Object.prototype` — misspellings, the empty string, and JS `undefined`
included — the manager carries the testnet profile and every getter
returns the testnet value; but if it is an inherited property name
(`"constructor"`, `"toString"`, `"__proto__"`, …) the truthy inherited
member is kept, the fallback does not fire, and every getter returns
`undefined`. -/
theorem c10_unknown_network_fallback_behaviour (s : Option String)
    (h : ∀ name, s = some name →
          name ≠ "mainnet" ∧ name ≠ "testnet" ∧ name ≠ "devnet") :
    ((∀ name, s = some name → name ∉ objectPrototypeMembers) →
      ((mkTimeoutManager s).config = .profile testnetTimeoutConfig ∧
       getDefaultSourceTimeout (mkTimeoutManager s) = some 1800000 ∧
       getDefaultDestTimeout (mkTimeoutManager s) = some 300000 ∧
       getSafetyMargin (mkTimeoutManager s) = some 300000)) ∧
    (∀ name, s = some name → name ∈ objectPrototypeMembers →
      ((mkTimeoutManager s).config = .protoMember ∧
       getDefaultSourceTimeout (mkTimeoutManager s) = none ∧
       getDefaultDestTimeout (mkTimeoutManager s) = none ∧
       getSafetyMargin (mkTimeoutManager s) = none)) := by
  constructor
  · intro hp
    have hconf : (mkTimeoutManager s).config = .profile testnetTimeoutConfig := by
      cases s with
      | none => rfl
      | some name =>
          obtain ⟨h1, h2, h3⟩ := h name rfl
          have h4 := hp name rfl
          simp [mkTimeoutManager, getTimeoutConfig, h1, h2, h3, h4]
    exact ⟨hconf,
           by simp [getDefaultSourceTimeout, hconf, jsField, testnetTimeoutConfig],
           by simp [getDefaultDestTimeout, hconf, jsField, testnetTimeoutConfig],
           by simp [getSafetyMargin, hconf, jsField, testnetTimeoutConfig]⟩
  · rintro name rfl hmem
    obtain ⟨h1, h2, h3⟩ := h name rfl
    have hconf : (mkTimeoutManager (some name)).config = .protoMember := by
      simp [mkTimeoutManager, getTimeoutConfig, h1, h2, h3, hmem]
    exact ⟨hconf,
           by simp [getDefaultSourceTimeout, hconf, jsField],
           by simp [getDefaultDestTimeout, hconf, jsField],
           by simp [getSafetyMargin, hconf, jsField]⟩

/-- C10 witness: the amended theorem applied at `"constructor"`, a name
outside the three networks that is inherited from `Object.prototype`. -/
theorem c10_unknown_network_witness :
    (mkTimeoutManager (some "constructor")).config = .protoMember ∧
    getDefaultSourceTimeout (mkTimeoutManager (some "constructor")) = none ∧
    getDefaultDestTimeout (mkTimeoutManager (some "constructor")) = none ∧
    getSafetyMargin (mkTimeoutManager (some "constructor")) = none :=
  (c10_unknown_network_fallback_behaviour (some "constructor")
      (fun name hname => by
        have he : name = "constructor" := (Option.some.inj hname).symm
        subst he
        exact ⟨by decide, by decide, by decide⟩)).2
    "constructor" rfl (by decide)

/-! ## C8: relayer retry loop (`src/unnamed/part_008`)

`_withdrawFromEthereumSafeWithRetry` / `_withdrawFromSuiSafeWithRetry`
loop `attempt = 1 .. retryAttempts`; on failure, when more attempts
remain, they sleep `retryDelay * attempt` ms. `outcome attempt` tells
whether the submission at that attempt succeeds. The model returns the
number of the last attempt performed and the list of delays slept. -/

/-- The retry loop with `remaining` attempts left, the next being
numbered `attempt`. -/
def withRetryGo (retryDelay : Nat) (outcome : Nat → Bool) : Nat → Nat → Nat × List Nat
  | 0, _ => (0, [])
  | remaining + 1, attempt =>
      if outcome attempt then (attempt, [])
      else if remaining = 0 then (attempt, [])
      else
        let r := withRetryGo retryDelay outcome remaining (attempt + 1)
        (r.1, retryDelay * attempt :: r.2)

/-- The whole retry loop, attempts numbered from 1. -/
def withRetry (retryDelay retryAttempts : Nat) (outcome : Nat → Bool) : Nat × List Nat :=
  withRetryGo retryDelay outcome retryAttempts 1

/-- The loop performs at most `attempt + remaining - 1` attempts. -/
theorem withRetryGo_le (retryDelay : Nat) (outcome : Nat → Bool)
    (remaining : Nat) :
    ∀ attempt, 1 ≤ attempt →
      (withRetryGo retryDelay outcome remaining attempt).1 < attempt + remaining := by
  induction remaining with
  | zero => intro attempt h1; simpa [withRetryGo] using h1
  | succ k ih =>
      intro attempt h1
      simp only [withRetryGo]
      split_ifs with hs hk
      · omega
      · omega
      · have := ih (attempt + 1) (by omega)
        simp only []
        omega

/-- When every attempt fails, the delays slept are
`retryDelay * attempt` for `attempt = 1 .. remaining - 1`. -/
theorem withRetryGo_delays (retryDelay : Nat) (remaining : Nat) :
    ∀ attempt,
      (withRetryGo retryDelay (fun _ => false) remaining attempt).2 =
        (List.range (remaining - 1)).map (fun i => retryDelay * (attempt + i)) := by
  induction remaining with
  | zero => intro attempt; simp [withRetryGo]
  | succ k ih =>
      intro attempt
      simp only [withRetryGo, if_neg (by simp : ¬ false = true)]
      split_ifs with hk
      · subst hk; simp
      · obtain ⟨k2, rfl⟩ : ∃ k2, k = k2 + 1 := ⟨k - 1, by omega⟩
        simp only [ih (attempt + 1), Nat.add_sub_cancel, List.range_succ_eq_map,
          List.map_cons, List.map_map]
        refine congrArg₂ _ (by ring) ?_
        refine List.map_congr_left (fun i _ => ?_)
        simp only [Function.comp, Nat.succ_eq_add_one]
        ring

/-- C8 counterexample: with `retryDelay = 1000` ms and 5 attempts all
failing, the code sleeps `[1000, 2000, 3000, 4000]` — linear growth.
No base-2 exponential schedule with ±25 % jitter produces these delays:
any base `b` with the first delay in `[0.75·b, 1.25·b]` forces
`b ≥ 800`, while the fourth delay `4000` in `[0.75·8b, 1.25·8b]`
forces `b ≤ 666`. -/
theorem c8_backoff_not_exponential :
    (withRetry 1000 5 (fun _ => false)).2 = [1000, 2000, 3000, 4000] ∧
    ¬ ∃ b : Nat, (3 * b ≤ 4 * 1000 ∧ 4 * 1000 ≤ 5 * b) ∧
        (3 * (8 * b) ≤ 4 * 4000 ∧ 4 * 4000 ≤ 5 * (8 * b)) := by
  constructor
  · decide
  · rintro ⟨b, ⟨h1, h2⟩, h3, h4⟩
    omega

/-- C8 amended: the relayer retries an on-chain withdraw up to the
configured `retryAttempts`, and the delay before the next attempt after
a failed attempt `k` is `retryDelay * k` — linear, deterministic, with
no jitter and no cap (not base-2 exponential with ±25 % jitter capped
at `max_backoff_ms`). -/
theorem c8_retry_linear_backoff (retryDelay retryAttempts : Nat) (outcome : Nat → Bool) :
    (withRetry retryDelay retryAttempts outcome).1 ≤ retryAttempts ∧
    (withRetry retryDelay retryAttempts (fun _ => false)).2 =
      (List.range (retryAttempts - 1)).map (fun i => retryDelay * (i + 1)) := by
  constructor
  · have := withRetryGo_le retryDelay outcome retryAttempts 1 (by omega)
    simpa [withRetry] using by omega
  · rw [withRetry, withRetryGo_delays]
    exact List.map_congr_left (fun i _ => by ring)

/-! ## C7: resolver swap monitoring
(`src/packages/resolver/src/services/ResolverService.ts`)

`monitorSwap` dispatches on the swap's status and the handlers call
`updateSwapStatus` zero or more times. The environment records what the
chain checks observe during one monitoring tick and whether the two
on-chain actions succeed (a thrown error reaches the interval's catch
and no further update of that handler runs). -/

/-- The `SwapStatus` enum of the resolver package. -/
inductive SwapStatus where
  | pending
  | userLocked
  | resolverLocked
  | bothLocked
  | userClaimed
  | resolverClaimed
  | completed
  | failed
  | refunded
  | expired
deriving DecidableEq

/-- What one monitoring tick observes: the chain checks
(`checkUserLocked`, `checkUserClaimed`, `checkResolverClaimed`,
`Date.now() > swap.userTimelock`) and whether
`createAndLockResolverSide` / `claimResolverSide` succeed. -/
structure MonitorEnv where
  userLocked : Bool
  pastUserTimelock : Bool
  lockSucceeds : Bool
  userClaimed : Bool
  resolverClaimed : Bool
  claimSucceeds : Bool

/-- Embeds `monitorSwap`: the list of statuses written by `updateSwapStatus`
during one tick, in order. From `PENDING` both `if`s of
`handlePendingSwap` run in sequence; `handleUserLockedSwap` catches its
own error; `handleBothLockedSwap` (also entered from
`RESOLVER_LOCKED`) claims the resolver side and then writes
`COMPLETED` directly; `handleUserClaimedSwap` writes `COMPLETED` once
the resolver has claimed; terminal statuses only stop the monitor. -/
def monitorStep (status : SwapStatus) (env : MonitorEnv) : List SwapStatus :=
  match status with
  | .pending =>
      (if env.userLocked then [SwapStatus.userLocked] else []) ++
      (if env.pastUserTimelock then [SwapStatus.expired] else [])
  | .userLocked => if env.lockSucceeds then [.bothLocked] else []
  | .resolverLocked | .bothLocked =>
      if env.userClaimed && !env.resolverClaimed then
        (if env.claimSucceeds then [.completed] else [])
      else if env.resolverClaimed && !env.userClaimed then [.resolverClaimed]
      else []
  | .userClaimed => if env.resolverClaimed then [.completed] else []
  | _ => []

/-- C7 counterexample: the claim says every path from `BothLocked` to
`Completed` traverses the `Revealed` (`USER_CLAIMED`) phase first. In
the tick that observes the user's claim (and no resolver claim yet),
the handler claims the resolver side and writes `COMPLETED` as the only
status update — the swap jumps `BOTH_LOCKED → COMPLETED` in one
transition and `USER_CLAIMED` is never written. -/
theorem c7_bothLocked_jumps_to_completed :
    monitorStep .bothLocked
      { userLocked := false, pastUserTimelock := false, lockSucceeds := false,
        userClaimed := true, resolverClaimed := false, claimSucceeds := true } =
      [.completed] ∧
    SwapStatus.userClaimed ∉
      monitorStep .bothLocked
        { userLocked := false, pastUserTimelock := false, lockSucceeds := false,
          userClaimed := true, resolverClaimed := false, claimSucceeds := true } := by
  exact ⟨by decide, by decide⟩

/-- C7 amended: the monitoring step never writes the `USER_CLAIMED`
(Revealed) status at all, and from `BOTH_LOCKED` it writes exactly
`[COMPLETED]` precisely when the tick observes the user claimed, the
resolver had not yet claimed, and the resolver-side claim succeeds —
i.e. the `BothLocked → Completed` transition happens in a single step
that skips the Revealed phase. -/
theorem c7_monitor_skips_revealed (status : SwapStatus) (env : MonitorEnv) :
    SwapStatus.userClaimed ∉ monitorStep status env ∧
    (monitorStep .bothLocked env = [.completed] ↔
      env.userClaimed = true ∧ env.resolverClaimed = false ∧
      env.claimSucceeds = true) := by
  obtain ⟨u, p, l, uc, rc, cs⟩ := env
  cases status <;> cases u <;> cases p <;> cases l <;>
    cases uc <;> cases rc <;> cases cs <;> exact ⟨by decide, by decide⟩
